import Mathlib

/-!
Formal model of the LocalFarmConnect messaging subsystem: a shallow
embedding of the conversation/message data model and operations from
`users/models.py`, the webhook dispatcher from `users/webhook.py`, the
automation API from `users/api/views.py`, and the conversation-creation
views from `users/messaging/views.py`, followed by theorems about
conversation identity, validation, unread counts, message ordering and
webhook dispatch.

Conventions of the embedding: Django model instances are structures;
`==` between model instances in Python compares primary keys, so every
such comparison is rendered as a comparison of `.id` fields; timestamps
are natural numbers supplied by the caller (`now`), standing for the
wall-clock instants `auto_now` / `auto_now_add` would record; the
database is a `Store` of rows, and each operation threads it explicitly.
Fallible Python code is rendered with `Except`.
-/

namespace LFC

/-- `users/models.py` `User`: the fields the messaging core reads
(`id` is the primary key, `user_type` is "buyer" or "farmer"). -/
structure User where
  id : Nat
  username : String
  user_type : String
deriving Repr, DecidableEq

/-- `users/models.py` `FarmerProfile`: only its `user` link matters here. -/
structure FarmerProfile where
  user : User
deriving Repr, DecidableEq

/-- `users/models.py` `Product`: `farmer` is a `FarmerProfile`. -/
structure Product where
  id : Nat
  name : String
  farmer : FarmerProfile
deriving Repr, DecidableEq

/-- `users/models.py` `Conversation`: buyer/farmer users, optional
product, `created_at` / `updated_at` timestamps. -/
structure Conversation where
  id : Nat
  buyer : User
  farmer : User
  product : Option Product
  created_at : Nat
  updated_at : Nat
deriving Repr, DecidableEq

/-- `users/models.py` `Message`: `conversation` renders the foreign key
by embedding the referenced row, as the source navigates
`self.conversation.buyer` etc. -/
structure Message where
  id : Nat
  conversation : Conversation
  sender : User
  content : String
  timestamp : Nat
  is_read : Bool
  is_automated : Bool
deriving Repr, DecidableEq

/-- The JSON payload built in `users/webhook.py` `trigger_n8n_webhook`. -/
structure WebhookPayload where
  conversation_id : Nat
  sender : String
  sender_username : String
  farmer_id : Nat
  farmer_username : String
  product_id : Option Nat
  product_name : Option String
  message : String
  timestamp : Nat
deriving Repr, DecidableEq

/-- The configuration surface read by the core (Django settings). -/
structure Settings where
  N8N_ENABLED : Bool
  N8N_SECRET_KEY : String
  N8N_WEBHOOK_URL : String
  N8N_WEBHOOK_TIMEOUT : Nat
deriving Repr, DecidableEq

/-- The database state threaded through the operations: conversation and
message rows, primary-key counters, and the list of webhook payloads
whose dispatch has been scheduled (the observable effect of
`trigger_n8n_webhook_async` passing the dispatcher's guards). -/
structure Store where
  conversations : List Conversation
  msgs : List Message
  next_conversation_id : Nat
  next_message_id : Nat
  dispatched : List WebhookPayload
deriving Repr, DecidableEq

/-- Exceptions raised by the modelled Django code. -/
inductive DjangoExc where
  | ValidationError (msg : String)
  | PermissionDenied (msg : String)
deriving Repr, DecidableEq

/-- Exceptions the webhook HTTP call can raise
(`requests.exceptions.Timeout`, `requests.exceptions.ConnectionError`,
anything else). -/
inductive PyExc where
  | timeoutExc
  | connectionErrorExc
  | otherExc (msg : String)
deriving Repr, DecidableEq

/-- Environment behaviour of one `session.post` call: either a response
with a status code (retries already folded in) or a raised exception. -/
inductive HttpOutcome where
  | response (status_code : Nat)
  | raiseTimeout
  | raiseConnectionError
  | raiseOther (msg : String)
deriving Repr, DecidableEq

/-- Log records emitted by the dispatcher. -/
inductive LogEntry where
  | info (msg : String)
  | warning (msg : String)
  | err (msg : String)
deriving Repr, DecidableEq

/-- `session.post(...)` in `trigger_n8n_webhook`: returns the response
status code or raises, according to the environment's `HttpOutcome`. -/
def requests_post (outcome : HttpOutcome) : Except PyExc Nat :=
  match outcome with
  | .response status_code => .ok status_code
  | .raiseTimeout => .error .timeoutExc
  | .raiseConnectionError => .error .connectionErrorExc
  | .raiseOther msg => .error (.otherExc msg)

/-- The guard clauses and payload construction of
`users/webhook.py` `trigger_n8n_webhook` (lines 44-70): returns `none`
when any of the three early returns fires (automated message, n8n
disabled, sender is not the conversation's buyer), otherwise the payload
that the single POST carries. -/
def dispatch_payload (settings : Settings) (message : Message) : Option WebhookPayload :=
  if message.is_automated then none
  else if !settings.N8N_ENABLED then none
  else if message.sender.id != message.conversation.buyer.id then none
  else some {
    conversation_id := message.conversation.id
    sender := "buyer"
    sender_username := message.sender.username
    farmer_id := message.conversation.farmer.id
    farmer_username := message.conversation.farmer.username
    product_id := message.conversation.product.map (·.id)
    product_name := message.conversation.product.map (·.name)
    message := message.content
    timestamp := message.timestamp }

/-- `users/webhook.py` `trigger_n8n_webhook` in full: the guards, then
the `try` block performing the POST, with the `except` clauses for
`Timeout`, `ConnectionError` and the blanket `except Exception` mapping
every raised exception to a log line.  The result carries the payload of
the attempted POST (or `none` if a guard fired) and the log entries. -/
def trigger_n8n_webhook (settings : Settings) (message : Message)
    (outcome : HttpOutcome) : Except PyExc (Option WebhookPayload × List LogEntry) :=
  match dispatch_payload settings message with
  | none => .ok (none, [])
  | some payload =>
    match requests_post outcome with
    | .ok status_code =>
      if status_code == 200 then
        .ok (some payload, [.info ("Successfully triggered n8n webhook for conversation "
          ++ toString message.conversation.id)])
      else
        .ok (some payload, [.warning ("n8n webhook returned status " ++ toString status_code
          ++ " for conversation " ++ toString message.conversation.id)])
    | .error .timeoutExc =>
      .ok (some payload, [.err ("Timeout triggering n8n webhook for conversation "
        ++ toString message.conversation.id)])
    | .error .connectionErrorExc =>
      .ok (some payload, [.err ("Connection error triggering n8n webhook for conversation "
        ++ toString message.conversation.id)])
    | .error (.otherExc e) =>
      .ok (some payload, [.err ("Error triggering n8n webhook for conversation "
        ++ toString message.conversation.id ++ ": " ++ e)])

/-- `Message.objects.create(...)` = construct + `Message.save`
(`users/models.py` lines 276-287): `full_clean` first (the `TextField`
rejects the empty string; `Message.clean` rejects a sender who is
neither the conversation's buyer nor its farmer — Django collects these
into one `ValidationError`, rendered here as the first applicable
message); only then the row is inserted, the owning conversation is
saved (refreshing its `auto_now` `updated_at`), and — since the row is
new — `trigger_n8n_webhook_async` is scheduled unless `is_automated`;
the scheduled dispatch is recorded iff the dispatcher's guards pass. -/
def Message_objects_create (settings : Settings) (st : Store)
    (conversation : Conversation) (sender : User) (content : String)
    (is_automated : Bool) (now : Nat) : Except DjangoExc (Message × Store) :=
  if content == "" then
    .error (.ValidationError "This field cannot be blank.")
  else if !(sender.id == conversation.buyer.id || sender.id == conversation.farmer.id) then
    .error (.ValidationError "Sender must be a participant in the conversation.")
  else
    let m : Message := {
      id := st.next_message_id
      conversation := conversation
      sender := sender
      content := content
      timestamp := now
      is_read := false
      is_automated := is_automated }
    .ok (m, { st with
      msgs := st.msgs ++ [m]
      next_message_id := st.next_message_id + 1
      conversations := st.conversations.map
        (fun r => if r.id == conversation.id then { conversation with updated_at := now } else r)
      dispatched := st.dispatched
        ++ (if is_automated then [] else (dispatch_payload settings m).toList) })

/-- The row-level write of `Message.mark_as_read`:
`super().save(update_fields=['is_read'])` sets `is_read` on the row
whose primary key matches and leaves every other row unchanged. -/
def mark_row (mid : Nat) (r : Message) : Message :=
  if r.id == mid then { r with is_read := true } else r

/-- `Message.mark_as_read` (`users/models.py` lines 289-293): if the
row is unread, set `is_read` and persist via
`super().save(update_fields=['is_read'])` — the base save, which writes
only that column of that row and bypasses the `Message.save` hook (no
conversation touch, no webhook); otherwise do nothing. -/
def mark_as_read (st : Store) (m : Message) : Store :=
  if m.is_read then st
  else { st with msgs := st.msgs.map (mark_row m.id) }

/-- The row predicate of `Conversation.unread_count(user)`:
`filter(is_read=False).exclude(sender=user)` restricted to the
conversation's related messages. -/
def unread_pred (c : Conversation) (user : User) (m : Message) : Bool :=
  m.conversation.id == c.id && m.is_read == false && !(m.sender.id == user.id)

/-- `Conversation.unread_count(user)` (`users/models.py` lines 242-244):
`self.messages.filter(is_read=False).exclude(sender=user).count()` — the
related messages of the conversation, restricted to unread ones not sent
by `user`. -/
def unread_count (st : Store) (c : Conversation) (user : User) : Nat :=
  st.msgs.countP (unread_pred c user)

/-- `Conversation.clean` (`users/models.py` lines 219-227). -/
def Conversation_clean (c : Conversation) : Except DjangoExc Unit :=
  if c.buyer.id == c.farmer.id then
    .error (.ValidationError "Buyer and farmer cannot be the same user.")
  else if c.buyer.user_type != "buyer" then
    .error (.ValidationError "First participant must be a buyer.")
  else if c.farmer.user_type != "farmer" then
    .error (.ValidationError "Second participant must be a farmer.")
  else
    .ok ()

/-- The primary-key projection of a conversation's unique triple
(buyer id, farmer id, optional product id), matching the columns of
`unique_together = ("buyer", "farmer", "product")`. -/
def tripleKey (c : Conversation) : Nat × Nat × Option Nat :=
  (c.buyer.id, c.farmer.id, c.product.map (·.id))

/-- The lookup predicate of
`Conversation.objects.get_or_create(buyer=..., farmer=..., product=...)`:
field equality against the given buyer, farmer and optional product
(`product=None` matches the rows whose product column is NULL). -/
def matchesTriple (c : Conversation) (buyer farmer : User) (product : Option Product) : Bool :=
  c.buyer.id == buyer.id && c.farmer.id == farmer.id
    && c.product.map (·.id) == product.map (·.id)

/-- At most one conversation row per (buyer, farmer, product) triple. -/
def uniqueTriples (st : Store) : Prop :=
  (st.conversations.map tripleKey).Nodup

/-- `Conversation.objects.get_or_create(buyer=..., farmer=..., product=...)`
as called in `users/messaging/views.py` (lines 167-172 and 235-240):
look the triple up; if absent, insert a fresh row (Django's
`objects.create` does not call `full_clean`, so `Conversation.clean` is
not run on this path).  Returns the conversation and the `created`
flag. -/
def get_or_create (st : Store) (buyer farmer : User) (product : Option Product)
    (now : Nat) : (Conversation × Bool) × Store :=
  match st.conversations.find? (fun c => matchesTriple c buyer farmer product) with
  | some c => ((c, false), st)
  | none =>
    let c : Conversation := {
      id := st.next_conversation_id
      buyer := buyer
      farmer := farmer
      product := product
      created_at := now
      updated_at := now }
    ((c, true), { st with
      conversations := st.conversations ++ [c]
      next_conversation_id := st.next_conversation_id + 1 })

/-- `start_product_conversation` (`users/messaging/views.py` lines
219-247), the conversation-creation path: the acting user must be a
buyer and must differ from the product's farmer (`PermissionDenied`
otherwise, raised before any write), then `get_or_create` runs with
`farmer = product.farmer.user` — with no role check on that farmer and
no call to `Conversation.clean`. -/
def start_product_conversation (st : Store) (user : User) (product : Product)
    (now : Nat) : Except DjangoExc (Conversation × Store) :=
  if user.user_type != "buyer" then
    .error (.PermissionDenied "Only buyers can start conversations.")
  else if user.id == product.farmer.user.id then
    .error (.PermissionDenied "You cannot message yourself.")
  else
    let r := get_or_create st user product.farmer.user (some product) now
    .ok (r.1.1, r.2)

/-- Python `str.strip()` whitespace test on the characters the model
handles (ASCII whitespace). -/
def isSpaceChar (c : Char) : Bool :=
  c == ' ' || c == '\t' || c == '\n' || c == '\r'

/-- Python `str.strip()` on a character list: drop whitespace from both
ends. -/
def pyStripChars (cs : List Char) : List Char :=
  ((cs.dropWhile isSpaceChar).reverse.dropWhile isSpaceChar).reverse

/-- Python `str.strip()`. -/
def strip (s : String) : String :=
  ⟨pyStripChars s.data⟩

/-- The parsed body of an automation-API request: `json.loads` either
raises `JSONDecodeError` or yields a dict, of which the handler reads
`conversation_id` (an integer when present) and `message` (a string when
present). -/
inductive RequestBody where
  | invalidJson
  | json (conversation_id : Option Nat) (message : Option String)
deriving Repr, DecidableEq

/-- The `JsonResponse` values `SendAutoMessageView.post` can return. -/
inductive ApiResponse where
  | unauthorized
  | badRequestMissing
  | badRequestInvalidJson
  | internalError
  | created (message_id : Nat) (conversation_id : Nat) (content : String) (timestamp : Nat)
deriving Repr, DecidableEq

/-- The HTTP status code of each response of `SendAutoMessageView.post`. -/
def ApiResponse.status_code : ApiResponse → Nat
  | .unauthorized => 401
  | .badRequestMissing => 400
  | .badRequestInvalidJson => 400
  | .internalError => 500
  | .created _ _ _ _ => 201

/-- `SendAutoMessageView.post` (`users/api/views.py` lines 30-88).
The secret header check (`not secret_header or secret_header != KEY`,
where an absent or empty header is falsy) precedes the `try` block.
Inside it: parse, read `conversation_id` and the stripped `message`
(`if not conversation_id or not content` rejects an absent or zero id
and empty content with 400), then `get_object_or_404(Conversation, pk=...)`.
`Http404` is a subclass of `Exception`, so when the conversation does
not exist the blanket `except Exception` handler catches it and returns
the 500 response — control never reaches Django's 404 handling.  An
existing conversation gets an automated message from its farmer via
`Message.objects.create`, answered with 201; a `ValidationError` from
the create would likewise be caught as a 500. -/
def SendAutoMessageView_post (settings : Settings) (st : Store)
    (secret_header : Option String) (body : RequestBody) (now : Nat) :
    ApiResponse × Store :=
  match secret_header with
  | none => (.unauthorized, st)
  | some sh =>
    if sh == "" || sh != settings.N8N_SECRET_KEY then (.unauthorized, st)
    else
      match body with
      | .invalidJson => (.badRequestInvalidJson, st)
      | .json conversation_id message? =>
        let content := strip (message?.getD "")
        match conversation_id with
        | none => (.badRequestMissing, st)
        | some n =>
          if n == 0 || content == "" then (.badRequestMissing, st)
          else
            match st.conversations.find? (fun c => c.id == n) with
            | none => (.internalError, st)
            | some conversation =>
              match Message_objects_create settings st conversation
                  conversation.farmer content true now with
              | .error _ => (.internalError, st)
              | .ok (m, st') => (.created m.id n content m.timestamp, st')

/-- `Message.Meta.ordering = ["timestamp"]` sortedness: consecutive
timestamps are nondecreasing. -/
def ts_sorted : List Message → Bool
  | [] => true
  | [_] => true
  | a :: b :: rest => decide (a.timestamp ≤ b.timestamp) && ts_sorted (b :: rest)

/-- The contract of listing a conversation's messages under
`Meta.ordering = ["timestamp"]`: the stored rows, returned sorted by
`timestamp` ascending.  SQL `ORDER BY` with equal keys leaves the
relative order of ties unspecified, and the `Meta` clause names no
tiebreaker column, so any timestamp-sorted permutation of the rows is a
legal result. -/
def IsListing (stored out : List Message) : Prop :=
  stored.Perm out ∧ ts_sorted out = true

/-- The fields of a message other than its `is_read` flag. -/
def msg_frame (m : Message) : Nat × Conversation × User × String × Nat × Bool :=
  (m.id, m.conversation, m.sender, m.content, m.timestamp, m.is_automated)

/-! ### Concrete fixtures (mirroring the repository's own test data) -/

/-- A buyer. -/
def bob : User := ⟨1, "bob", "buyer"⟩

/-- A farmer. -/
def fiona : User := ⟨2, "fiona", "farmer"⟩

/-- A product of `fiona`'s farm. -/
def tomatoes : Product := ⟨5, "Tomatoes", ⟨fiona⟩⟩

/-- An existing conversation between `bob` and `fiona` about `tomatoes`. -/
def conv0 : Conversation := ⟨10, bob, fiona, some tomatoes, 0, 0⟩

/-- A store holding just `conv0` and no messages. -/
def st0 : Store := ⟨[conv0], [], 11, 100, []⟩

/-- A configuration with the webhook enabled and secret "sek". -/
def settings0 : Settings := ⟨true, "sek", "http://n8n.example/hook", 10⟩

/-- A user whose `user_type` is "buyer" but who nevertheless owns a
`FarmerProfile` (nothing in the schema forbids this). -/
def mallory : User := ⟨7, "mallory", "buyer"⟩

/-- A product whose farmer profile belongs to the buyer-typed `mallory`. -/
def corn : Product := ⟨6, "Corn", ⟨mallory⟩⟩

/-- `conv0` after its `updated_at` was refreshed at instant 4. -/
def conv0_touched4 : Conversation := ⟨10, bob, fiona, some tomatoes, 0, 4⟩

/-- The automated-message fixture: what an automation reply in `conv0`
looks like. -/
def msgAuto : Message := ⟨102, conv0, fiona, "auto reply", 4, false, true⟩

/-- The message created by `Message_objects_create settings0 st0 conv0 bob "Yes" true 4`. -/
def mAuto : Message := ⟨100, conv0, bob, "Yes", 4, false, true⟩

/-- The store produced alongside `mAuto`. -/
def stAuto : Store := ⟨[conv0_touched4], [mAuto], 11, 101, []⟩

/-- The message created by `Message_objects_create settings0 st0 conv0 bob "Yes" false 4`. -/
def mHuman : Message := ⟨100, conv0, bob, "Yes", 4, false, false⟩

/-- The payload dispatched for `mHuman`. -/
def payloadHuman : WebhookPayload := ⟨10, "buyer", "bob", 2, "fiona", some 5, some "Tomatoes", "Yes", 4⟩

/-- The store produced alongside `mHuman`. -/
def stHuman : Store := ⟨[conv0_touched4], [mHuman], 11, 101, [payloadHuman]⟩

/-- `conv0` after its `updated_at` was refreshed at instant 7. -/
def conv0_touched7 : Conversation := ⟨10, bob, fiona, some tomatoes, 0, 7⟩

/-- A whitespace-only message from the buyer, as the model layer
persists it. -/
def mWs : Message := ⟨100, conv0, bob, " ", 7, false, false⟩

/-- The payload dispatched for the whitespace-only message `mWs`. -/
def payloadWs : WebhookPayload := ⟨10, "buyer", "bob", 2, "fiona", some 5, some "Tomatoes", " ", 7⟩

/-- The store after appending the whitespace-only message `mWs`. -/
def stWs : Store := ⟨[conv0_touched7], [mWs], 11, 101, [payloadWs]⟩

/-- An unread buyer message in `conv0`. -/
def msg0 : Message := ⟨100, conv0, bob, "Is this available?", 1, false, false⟩

/-- A store holding `conv0` and the unread `msg0`. -/
def st1 : Store := ⟨[conv0], [msg0], 11, 101, []⟩

/-- The same message already marked read. -/
def msgRead : Message := ⟨100, conv0, bob, "Is this available?", 1, true, false⟩

/-- A store holding `conv0` and the already-read `msgRead`. -/
def st2 : Store := ⟨[conv0], [msgRead], 11, 101, []⟩

/-- First of two messages sharing one creation timestamp. -/
def mTie1 : Message := ⟨100, conv0, bob, "M1", 5, false, false⟩

/-- Second message with the same timestamp as `mTie1`. -/
def mTie2 : Message := ⟨101, conv0, fiona, "M2", 5, false, false⟩

/-- A message strictly earlier than `mLate`. -/
def mEarly : Message := ⟨102, conv0, bob, "M3", 5, false, false⟩

/-- A message strictly later than `mEarly`. -/
def mLate : Message := ⟨103, conv0, fiona, "M4", 6, false, false⟩

/-- A conversation whose buyer and farmer are the same user. -/
def convSelf : Conversation := ⟨99, bob, bob, none, 0, 0⟩

end LFC

namespace LFC

/-! ### Theorems -/

/-- Claim C2: for every newly created message, the Notification
Dispatcher performs no HTTP POST whenever any guard condition holds
(the message is automated, the webhook feature is disabled, or the
sender is not the conversation's buyer) — and only then; the dispatcher
run always returns the guarded payload without raising; an automated
create schedules nothing; a non-automated, buyer-sent create with the
feature enabled schedules exactly one dispatch. -/
theorem C2_dispatch_guards (settings : Settings) (message : Message) (outcome : HttpOutcome)
    (st : Store) (conversation : Conversation) (sender : User) (content : String) (now : Nat) :
    (dispatch_payload settings message = none ↔
      (message.is_automated = true ∨ settings.N8N_ENABLED = false ∨
        message.sender.id ≠ message.conversation.buyer.id))
    ∧ (∃ logs, trigger_n8n_webhook settings message outcome
        = .ok (dispatch_payload settings message, logs))
    ∧ (∀ m st', Message_objects_create settings st conversation sender content true now
        = .ok (m, st') → st'.dispatched = st.dispatched)
    ∧ (∀ m st', Message_objects_create settings st conversation sender content false now
        = .ok (m, st') → sender.id = conversation.buyer.id → settings.N8N_ENABLED = true →
        ∃ p, st'.dispatched = st.dispatched ++ [p]) := by
  refine ⟨?_, ?_, ?_, ?_⟩
  · unfold dispatch_payload
    by_cases ha : message.is_automated <;>
      by_cases he : settings.N8N_ENABLED <;>
        by_cases hs : message.sender.id = message.conversation.buyer.id <;>
          simp [ha, he, hs, bne_iff_ne]
  · unfold trigger_n8n_webhook
    cases dispatch_payload settings message with
    | none => exact ⟨[], rfl⟩
    | some payload =>
      cases outcome with
      | response status_code =>
        by_cases h200 : status_code == 200 <;> simp [requests_post, h200]
      | raiseTimeout => simp [requests_post]
      | raiseConnectionError => simp [requests_post]
      | raiseOther e => simp [requests_post]
  · intro m st' h
    rw [Message_objects_create] at h
    split at h
    · simp at h
    · split at h
      · simp at h
      · simp only [Except.ok.injEq, Prod.mk.injEq] at h
        obtain ⟨-, hst'⟩ := h
        rw [← hst']
        simp
  · intro m st' h hb he
    rw [Message_objects_create] at h
    split at h
    · simp at h
    · split at h
      · simp at h
      · simp only [Except.ok.injEq, Prod.mk.injEq] at h
        obtain ⟨-, hst'⟩ := h
        rw [← hst']
        have h1 : (sender.id != conversation.buyer.id) = false := by simp [hb]
        have hsome : (dispatch_payload settings
            { id := st.next_message_id, conversation := conversation, sender := sender,
              content := content, timestamp := now, is_read := false,
              is_automated := false }).isSome = true := by
          simp [dispatch_payload, h1, he]
        obtain ⟨p, hp2⟩ := Option.isSome_iff_exists.mp hsome
        exact ⟨p, by simp [hp2]⟩

/-- Witness for C2: an automated message is never dispatched; creating
an automated farmer reply schedules nothing; creating a human buyer
message with the feature enabled schedules exactly one dispatch. -/
theorem C2_dispatch_guards_witness :
    dispatch_payload settings0 msgAuto = none
    ∧ stAuto.dispatched = st0.dispatched
    ∧ (∃ p, stHuman.dispatched = st0.dispatched ++ [p]) := by
  have h := C2_dispatch_guards settings0 msgAuto (.response 200) st0 conv0 bob "Yes" 4
  exact ⟨h.1.mpr (Or.inl rfl), h.2.2.1 mAuto stAuto rfl,
    h.2.2.2 mHuman stHuman rfl rfl rfl⟩

/-- Claim C3: every outcome of the webhook delivery attempt (success,
non-200 status, timeout, connection error, unexpected exception) is
caught inside `trigger_n8n_webhook`, which therefore never propagates an
exception to its caller. -/
theorem C3_dispatch_never_raises (settings : Settings) (message : Message)
    (outcome : HttpOutcome) :
    (trigger_n8n_webhook settings message outcome).isOk = true := by
  unfold trigger_n8n_webhook
  cases dispatch_payload settings message with
  | none => rfl
  | some payload =>
    cases outcome with
    | response status_code =>
      by_cases h200 : status_code == 200 <;> simp [requests_post, h200] <;> rfl
    | raiseTimeout => rfl
    | raiseConnectionError => rfl
    | raiseOther e => rfl

/-- Claim C4 (code bug): an automation-gateway POST with the correct
secret, well-formed JSON, non-empty fields, and a `conversation_id`
that resolves to no conversation is answered with the 500
"Internal server error" response, not the specified 404 —
`get_object_or_404` raises `Http404`, a subclass of `Exception`, inside
the `try` whose blanket `except Exception` handler returns 500.  No
message is created (the store is unchanged). -/
theorem C4_unknown_conversation_is_500 :
    SendAutoMessageView_post settings0 st0 (some "sek") (.json (some 99) (some "hello")) 4
      = (ApiResponse.internalError, st0)
    ∧ ApiResponse.internalError.status_code = 500
    ∧ ApiResponse.internalError.status_code ≠ 404 := by
  exact ⟨by decide, rfl, by decide⟩

/-- Claim C10: `mark_as_read` changes at most the `is_read` flag of
message rows: the conversation rows (in particular their last-activity
`updated_at` timestamps), the scheduled webhook dispatches, the id
counters, and every other field of every message are left untouched,
because the field-restricted base save bypasses the `Message.save`
hook. -/
theorem C10_mark_as_read_frame (st : Store) (m : Message) :
    (mark_as_read st m).conversations = st.conversations
    ∧ (mark_as_read st m).dispatched = st.dispatched
    ∧ (mark_as_read st m).next_conversation_id = st.next_conversation_id
    ∧ (mark_as_read st m).next_message_id = st.next_message_id
    ∧ (mark_as_read st m).msgs.map msg_frame = st.msgs.map msg_frame := by
  by_cases hr : m.is_read
  · simp [mark_as_read, hr]
  · unfold mark_as_read
    rw [if_neg hr]
    refine ⟨rfl, rfl, rfl, rfl, ?_⟩
    rw [List.map_map]
    apply List.map_congr_left
    intro r _
    by_cases hid : r.id == m.id <;> simp [mark_row, msg_frame, Function.comp, hid]

end LFC

namespace LFC

/-- Claim C7 counterexample: appending a message whose content is the
whitespace-only string " " (non-empty after no trimming happens at the
model layer) raises no `ValidationError` — `full_clean` rejects only the
empty string — and the message is persisted with its whitespace
content. -/
theorem C7_counterexample :
    Message_objects_create settings0 st0 conv0 bob " " false 7 = .ok (mWs, stWs)
    ∧ mWs.content = " " ∧ stWs.msgs = st0.msgs ++ [mWs] :=
  ⟨rfl, rfl, rfl⟩

/-- Claim C7 as amended: appending fails with `ValidationError` exactly
when the content is the empty string or the sender is neither the
conversation's buyer nor its farmer (and on failure nothing is
persisted, the error being raised before the insert); whitespace-only
but non-empty content is accepted by the model-layer append. -/
theorem C7_append_validation (settings : Settings) (st : Store)
    (conversation : Conversation) (sender : User) (content : String)
    (automated : Bool) (now : Nat) :
    (∃ e, Message_objects_create settings st conversation sender content automated now
        = .error (DjangoExc.ValidationError e))
      ↔ (content = ""
          ∨ (sender.id ≠ conversation.buyer.id ∧ sender.id ≠ conversation.farmer.id)) := by
  by_cases hc : content = ""
  · simp [Message_objects_create, hc]
  · have hc' : (content == "") = false := by simp [hc]
    by_cases hp : sender.id = conversation.buyer.id ∨ sender.id = conversation.farmer.id
    · have hp' : (sender.id == conversation.buyer.id
          || sender.id == conversation.farmer.id) = true := by
        rcases hp with h | h <;> simp [h]
      simp [Message_objects_create, hc', hp', hc]
      tauto
    · push_neg at hp
      have hp' : (sender.id == conversation.buyer.id
          || sender.id == conversation.farmer.id) = false := by
        simp [hp.1, hp.2]
      simp [Message_objects_create, hc', hp', hc, hp.1, hp.2]

/-- Claim C5: an automation-gateway POST with the correct secret, an
existing conversation and non-empty content creates a message whose
sender is the conversation's farmer with the automated flag set, does
not invoke the Notification Dispatcher, and is answered with a 201
carrying the message id, conversation id, content and timestamp. -/
theorem C5_auto_message (settings : Settings) (st : Store) (sh : String)
    (n : Nat) (raw : String) (c : Conversation) (now : Nat)
    (hsh : sh ≠ "") (hkey : sh = settings.N8N_SECRET_KEY) (hn : n ≠ 0)
    (hcontent : strip raw ≠ "")
    (hfind : st.conversations.find? (fun cc => cc.id == n) = some c) :
    ∃ m st',
      SendAutoMessageView_post settings st (some sh) (.json (some n) (some raw)) now
        = (ApiResponse.created m.id n (strip raw) m.timestamp, st')
      ∧ m.sender = c.farmer ∧ m.is_automated = true ∧ m.timestamp = now
      ∧ st'.dispatched = st.dispatched ∧ st'.msgs = st.msgs ++ [m]
      ∧ (ApiResponse.created m.id n (strip raw) m.timestamp).status_code = 201 := by
  have hrun : SendAutoMessageView_post settings st (some sh) (.json (some n) (some raw)) now
      = (ApiResponse.created st.next_message_id n (strip raw) now,
         ⟨st.conversations.map (fun r => if r.id == c.id then { c with updated_at := now } else r),
          st.msgs ++ [⟨st.next_message_id, c, c.farmer, strip raw, now, false, true⟩],
          st.next_conversation_id, st.next_message_id + 1, st.dispatched⟩) := by
    subst hkey
    simp only [SendAutoMessageView_post, Option.getD_some, Message_objects_create]
    simp [hsh, hn, hcontent, hfind]
  exact ⟨⟨st.next_message_id, c, c.farmer, strip raw, now, false, true⟩,
    _, hrun, rfl, rfl, rfl, rfl, rfl, rfl⟩

/-- Witness for C5: the concrete gateway call on the fixture store
creates the automated farmer reply and answers 201. -/
theorem C5_auto_message_witness :
    ∃ m st',
      SendAutoMessageView_post settings0 st0 (some "sek")
          (.json (some 10) (some " Yes, available ")) 4
        = (ApiResponse.created m.id 10 (strip " Yes, available ") m.timestamp, st')
      ∧ m.sender = conv0.farmer ∧ m.is_automated = true ∧ m.timestamp = 4
      ∧ st'.dispatched = st0.dispatched ∧ st'.msgs = st0.msgs ++ [m]
      ∧ (ApiResponse.created m.id 10 (strip " Yes, available ") m.timestamp).status_code = 201 :=
  C5_auto_message settings0 st0 "sek" 10 " Yes, available " conv0 4
    (by decide) rfl (by decide) (by decide) (by decide)

end LFC

namespace LFC

/-- Claim C6 counterexample: a buyer starting a conversation about a
product whose `FarmerProfile` belongs to a buyer-typed user succeeds
without any `ValidationError` — the view path creates via
`get_or_create`, which never calls `Conversation.clean` — leaving a
conversation whose farmer's role is not "farmer". -/
theorem C6_counterexample :
    (start_product_conversation st0 bob corn 9).isOk = true
    ∧ ((start_product_conversation st0 bob corn 9).toOption.map
        (fun r => r.1.farmer.user_type)) = some "buyer"
    ∧ corn.farmer.user.user_type ≠ "farmer" := by
  exact ⟨rfl, rfl, by decide⟩

/-- Claim C6 as amended: `Conversation.clean` raises `ValidationError`
exactly when buyer = farmer, the buyer's role is not "buyer", or the
farmer's role is not "farmer"; the view creation path instead raises
`PermissionDenied` (before any write) when the actor is not a buyer or
equals the product's farmer, and a conversation it creates or finds has
the actor as buyer and the product's farmer-profile user as farmer —
but that farmer's role is never checked on this path, since
`get_or_create` does not invoke `clean`. -/
theorem C6_conversation_invariants (c : Conversation) (st : Store) (user : User)
    (product : Product) (now : Nat) :
    ((∃ e, Conversation_clean c = .error (DjangoExc.ValidationError e))
      ↔ (c.buyer.id = c.farmer.id ∨ c.buyer.user_type ≠ "buyer"
          ∨ c.farmer.user_type ≠ "farmer"))
    ∧ ((user.user_type ≠ "buyer" ∨ user.id = product.farmer.user.id) →
        ∃ e, start_product_conversation st user product now
          = .error (DjangoExc.PermissionDenied e))
    ∧ (∀ conv st', start_product_conversation st user product now = .ok (conv, st') →
        conv.buyer.id = user.id ∧ conv.farmer.id = product.farmer.user.id
        ∧ user.user_type = "buyer" ∧ user.id ≠ product.farmer.user.id) := by
  refine ⟨?_, ?_, ?_⟩
  · by_cases h1 : c.buyer.id = c.farmer.id
    · simp [Conversation_clean, h1]
    · by_cases h2 : c.buyer.user_type = "buyer"
      · by_cases h3 : c.farmer.user_type = "farmer"
        · simp [Conversation_clean, h1, h2, h3]
        · simp [Conversation_clean, h1, h2, h3]
      · simp [Conversation_clean, h1, h2]
  · intro h
    by_cases hr : user.user_type = "buyer"
    · rcases h with h | h
      · exact absurd hr h
      · refine ⟨"You cannot message yourself.", ?_⟩
        simp [start_product_conversation, hr, h]
    · refine ⟨"Only buyers can start conversations.", ?_⟩
      simp [start_product_conversation, hr]
  · intro conv st' h
    by_cases hr : user.user_type = "buyer"
    · by_cases hs : user.id = product.farmer.user.id
      · simp [start_product_conversation, hr, hs] at h
      · refine ⟨?_, ?_, hr, hs⟩ <;>
        · simp only [start_product_conversation] at h
          rw [if_neg (by simp [hr]), if_neg (by simp [hs])] at h
          simp only [Except.ok.injEq, Prod.mk.injEq] at h
          obtain ⟨hconv, -⟩ := h
          rw [← hconv]
          cases hf : st.conversations.find?
              (fun cc => matchesTriple cc user product.farmer.user (some product)) with
          | none => simp [get_or_create, hf]
          | some c0 =>
            have hp := List.find?_some hf
            simp only [matchesTriple, Bool.and_eq_true, beq_iff_eq] at hp
            simp [get_or_create, hf, hp.1.1, hp.1.2]
    · simp [start_product_conversation, hr] at h

/-- Witness for C6: `clean` rejects a self-conversation; a farmer-typed
actor cannot start a conversation; a successful start by `bob` about
`tomatoes` yields a conversation between `bob` and the product's
farmer. -/
theorem C6_conversation_invariants_witness :
    (∃ e, Conversation_clean convSelf = .error (DjangoExc.ValidationError e))
    ∧ (∃ e, start_product_conversation st0 fiona tomatoes 3
        = .error (DjangoExc.PermissionDenied e))
    ∧ (conv0.buyer.id = bob.id ∧ conv0.farmer.id = tomatoes.farmer.user.id
        ∧ bob.user_type = "buyer" ∧ bob.id ≠ tomatoes.farmer.user.id) := by
  refine ⟨(C6_conversation_invariants convSelf st0 fiona tomatoes 3).1.mpr (Or.inl rfl),
    (C6_conversation_invariants convSelf st0 fiona tomatoes 3).2.1 (Or.inl (by decide)),
    (C6_conversation_invariants convSelf st0 bob tomatoes 3).2.2 conv0 st0 rfl⟩

end LFC

namespace LFC

/-- A conversation matches the `get_or_create` lookup for a triple
exactly when its `tripleKey` is that triple's key. -/
theorem matchesTriple_iff_tripleKey (c : Conversation) (b f : User) (p : Option Product) :
    matchesTriple c b f p = true ↔ tripleKey c = (b.id, f.id, p.map (·.id)) := by
  simp [matchesTriple, tripleKey, Bool.and_eq_true, Prod.ext_iff, and_assoc]

/-- Claim C1: `get_or_create` is idempotent — a second call with the
same (buyer, farmer, product) triple returns the same conversation
(same row, `created = false`) and leaves the store untouched — and it
preserves the at-most-one-row-per-triple invariant, product-less
triples included (the `Option Product` argument covers `product=None`).
The model is sequential: each call runs to completion before the
next. -/
theorem C1_get_or_create (st : Store) (buyer farmer : User)
    (product : Option Product) (now now' : Nat) :
    ((get_or_create (get_or_create st buyer farmer product now).2 buyer farmer product now').1.1
      = (get_or_create st buyer farmer product now).1.1)
    ∧ ((get_or_create (get_or_create st buyer farmer product now).2 buyer farmer product now').1.2
      = false)
    ∧ ((get_or_create (get_or_create st buyer farmer product now).2 buyer farmer product now').2
      = (get_or_create st buyer farmer product now).2)
    ∧ (uniqueTriples st → uniqueTriples (get_or_create st buyer farmer product now).2) := by
  cases hfind : st.conversations.find? (fun c => matchesTriple c buyer farmer product) with
  | some c =>
    have h1 : get_or_create st buyer farmer product now = ((c, false), st) := by
      unfold get_or_create
      rw [hfind]
    have h2 : get_or_create st buyer farmer product now' = ((c, false), st) := by
      unfold get_or_create
      rw [hfind]
    rw [h1]
    rw [h2]
    exact ⟨rfl, rfl, rfl, fun h => h⟩
  | none =>
    have h1 : get_or_create st buyer farmer product now
        = ((⟨st.next_conversation_id, buyer, farmer, product, now, now⟩, true),
           ⟨st.conversations ++ [⟨st.next_conversation_id, buyer, farmer, product, now, now⟩],
            st.msgs, st.next_conversation_id + 1, st.next_message_id, st.dispatched⟩) := by
      unfold get_or_create
      rw [hfind]
    have hmatch : matchesTriple ⟨st.next_conversation_id, buyer, farmer, product, now, now⟩
        buyer farmer product = true := by
      simp [matchesTriple]
    have h2 : (st.conversations
          ++ [(⟨st.next_conversation_id, buyer, farmer, product, now, now⟩ : Conversation)]).find?
          (fun c => matchesTriple c buyer farmer product)
        = some ⟨st.next_conversation_id, buyer, farmer, product, now, now⟩ := by
      rw [List.find?_append, hfind]
      simp [List.find?, hmatch]
    have h3 : get_or_create
        (⟨st.conversations ++ [⟨st.next_conversation_id, buyer, farmer, product, now, now⟩],
          st.msgs, st.next_conversation_id + 1, st.next_message_id, st.dispatched⟩ : Store)
        buyer farmer product now'
        = ((⟨st.next_conversation_id, buyer, farmer, product, now, now⟩, false),
           ⟨st.conversations ++ [⟨st.next_conversation_id, buyer, farmer, product, now, now⟩],
            st.msgs, st.next_conversation_id + 1, st.next_message_id, st.dispatched⟩) := by
      unfold get_or_create
      rw [h2]
    rw [h1]
    rw [h3]
    refine ⟨rfl, rfl, rfl, ?_⟩
    intro hu
    unfold uniqueTriples at hu ⊢
    rw [List.map_append, List.nodup_append]
    refine ⟨hu, by simp, ?_⟩
    intro k hk hk'
    simp only [List.map_cons, List.map_nil, List.mem_singleton] at hk'
    obtain ⟨c0, hc0, hkey⟩ := List.mem_map.mp hk
    have hfalse := List.find?_eq_none.mp hfind c0 hc0
    apply hfalse
    rw [matchesTriple_iff_tripleKey]
    rw [hkey, hk']
    rfl

/-- Witness for C1: on the fixture store, repeating the call returns
the same conversation and preserves triple uniqueness. -/
theorem C1_get_or_create_witness :
    ((get_or_create (get_or_create st0 bob fiona (some tomatoes) 3).2 bob fiona
        (some tomatoes) 4).1.1
      = (get_or_create st0 bob fiona (some tomatoes) 3).1.1)
    ∧ uniqueTriples (get_or_create st0 bob fiona (some tomatoes) 3).2 := by
  have h := C1_get_or_create st0 bob fiona (some tomatoes) 3 4
  exact ⟨h.1, h.2.2.2 (by unfold uniqueTriples; decide)⟩

end LFC

namespace LFC

/-- Marking a row whose id occurs nowhere in a list leaves the list
unchanged. -/
theorem map_mark_row_of_not_mem (l : List Message) (mid : Nat)
    (h : ∀ r ∈ l, r.id ≠ mid) :
    l.map (mark_row mid) = l := by
  induction l with
  | nil => rfl
  | cons a t ih =>
    simp only [List.map_cons]
    rw [show mark_row mid a = a from
        by unfold mark_row; rw [if_neg (by simp [h a (List.mem_cons_self a t)])]]
    rw [ih (fun r hr => h r (List.mem_cons_of_mem a hr))]

/-- Marking one unread row that satisfies the unread predicate lowers
the `countP` of that predicate by exactly one, provided message ids are
unique. -/
theorem countP_map_mark_row (c : Conversation) (user : User) (l : List Message) (m : Message)
    (hnd : (l.map Message.id).Nodup) (hm : m ∈ l)
    (hP : unread_pred c user m = true) :
    (l.map (mark_row m.id)).countP (unread_pred c user) + 1
      = l.countP (unread_pred c user) := by
  induction l with
  | nil => cases hm
  | cons a t ih =>
    have hnd' : (t.map Message.id).Nodup := (List.nodup_cons.mp (by simpa using hnd)).2
    rcases List.mem_cons.mp hm with hma | hmt
    · have htail : ∀ r ∈ t, r.id ≠ m.id := by
        intro r hr he
        have h1 : m.id ∈ t.map Message.id := he ▸ List.mem_map_of_mem Message.id hr
        exact (List.nodup_cons.mp (by simpa [← hma] using hnd)).1 h1
      simp only [List.map_cons]
      rw [← hma]
      rw [show mark_row m.id m = { m with is_read := true } from
          by unfold mark_row; rw [if_pos (by simp)]]
      rw [map_mark_row_of_not_mem t m.id htail]
      rw [List.countP_cons, List.countP_cons]
      have hhead : unread_pred c user { m with is_read := true } = false := by
        simp [unread_pred]
      rw [hhead, hP]
      simp
    · have hat : a.id ≠ m.id := by
        intro he
        have h1 : m.id ∈ t.map Message.id := List.mem_map_of_mem Message.id hmt
        exact (List.nodup_cons.mp (by simpa using hnd)).1 (he ▸ h1)
      simp only [List.map_cons]
      rw [show mark_row m.id a = a from
          by unfold mark_row; rw [if_neg (by simp [hat])]]
      rw [List.countP_cons, List.countP_cons]
      have := ih hnd' hmt
      omega

/-- Claim C8: the unread count is the number of messages in the
conversation with `is_read = false` and a sender other than the querying
user (that is `unread_count`'s very definition, lifted from the source
queryset); marking exactly one such unread message read decreases the
count by exactly one, and `mark_as_read` on an already-read message is
a no-op, leaving the count unchanged. -/
theorem C8_unread_count_mark (st : Store) (c : Conversation) (user : User) (m : Message)
    (hnd : (st.msgs.map Message.id).Nodup) (hm : m ∈ st.msgs) :
    (m.is_read = false → m.conversation.id = c.id → m.sender.id ≠ user.id →
      unread_count (mark_as_read st m) c user + 1 = unread_count st c user)
    ∧ (m.is_read = true → mark_as_read st m = st) := by
  constructor
  · intro hread hc hs
    unfold mark_as_read
    rw [if_neg (by simp [hread])]
    unfold unread_count
    exact countP_map_mark_row c user st.msgs m hnd hm
      (by simp [unread_pred, hc, hread, hs])
  · intro hread
    unfold mark_as_read
    rw [if_pos hread]

/-- Witness for C8: on the fixture store, marking the unread buyer
message drops the farmer's unread count from 1 to 0, and re-marking an
already-read message leaves the store untouched. -/
theorem C8_unread_count_mark_witness :
    (unread_count (mark_as_read st1 msg0) conv0 fiona + 1 = unread_count st1 conv0 fiona)
    ∧ mark_as_read st2 msgRead = st2 :=
  ⟨(C8_unread_count_mark st1 conv0 fiona msg0 (by decide) (by decide)).1 rfl rfl (by decide),
   (C8_unread_count_mark st2 conv0 fiona msgRead (by decide) (by decide)).2 rfl⟩

end LFC

namespace LFC

/-- Claim C9 counterexample: `Meta.ordering = ["timestamp"]` names no
tiebreaker, so for two messages appended with equal creation timestamps
the reversed order is also a legal listing — the listing is not
determined to be [M1, M2]. -/
theorem C9_counterexample :
    IsListing [mTie1, mTie2] [mTie2, mTie1]
    ∧ ([mTie2, mTie1] : List Message) ≠ [mTie1, mTie2] :=
  ⟨⟨List.Perm.swap mTie2 mTie1 [], by decide⟩, by decide⟩

/-- Claim C9 as amended: any legal listing is sorted by creation
timestamp ascending, and when M1's timestamp is strictly below M2's,
appending M1 then M2 yields exactly the listing [M1, M2]; for equal
timestamps the code specifies no tiebreaker, so the tie order is not
guaranteed. -/
theorem C9_listing_sorted (a b : Message) (out : List Message)
    (hts : a.timestamp < b.timestamp) (h : IsListing [a, b] out) :
    out = [a, b] := by
  obtain ⟨hperm, hsort⟩ := h
  have hab : a ≠ b := by
    intro he
    rw [he] at hts
    exact lt_irrefl _ hts
  have hlen : out.length = 2 := by simpa using hperm.length_eq.symm
  match out, hlen with
  | [x, y], _ =>
    have hbmem : b ∈ [x, y] := hperm.mem_iff.mp (by simp)
    have hamem : a ∈ [x, y] := hperm.mem_iff.mp (by simp)
    have hxmem : x ∈ [a, b] := hperm.mem_iff.mpr (by simp)
    by_cases hxa : x = a
    · subst hxa
      have hyb : y = b := by
        rcases List.mem_cons.mp hbmem with h1 | h1
        · exact absurd h1.symm hab
        · exact (List.mem_singleton.mp h1).symm
      rw [hyb]
    · have hxb : x = b := by
        rcases List.mem_cons.mp hxmem with h1 | h1
        · exact absurd h1 hxa
        · simpa using h1
      subst hxb
      have hya : y = a := by
        rcases List.mem_cons.mp hamem with h1 | h1
        · exact absurd h1 hab
        · exact (List.mem_singleton.mp h1).symm
      subst hya
      exfalso
      simp only [ts_sorted, Bool.and_eq_true, decide_eq_true_eq] at hsort
      exact absurd hsort.1 (not_le.mpr hts)

/-- Witness for C9: with strictly increasing timestamps the listing of
[mEarly, mLate] is forced to be [mEarly, mLate]. -/
theorem C9_listing_sorted_witness :
    mEarly.timestamp < mLate.timestamp
    ∧ ([mEarly, mLate] : List Message) = [mEarly, mLate] :=
  ⟨by decide, C9_listing_sorted mEarly mLate [mEarly, mLate] (by decide)
    ⟨List.Perm.refl _, by decide⟩⟩

end LFC
